import Mathlib

/-!
Verification of the e-stat MCP server (src/estat_mcp_server/server.py).

The server exposes five read-only operations against the e-stat statistics
API.  Each operation builds a parameterized URL and delegates to a shared
request executor `make_e_stat_request`, which performs one HTTP GET and
normalizes transport and status failures into a small fixed set of
serialized error payloads.

The embedding below is shallow: the network is a parameter
(a function from the issued request to its outcome), Python
truthiness of optional strings and f-string rendering are modelled
explicitly, and each operation returns its result together with the list
of GET requests it issued, so that "zero network calls" and "exactly one
network call" are provable statements.  The raised `ValueError` of the
specific-data operation is modelled as `Except.error`.
-/

namespace EStat

/-- Python truthiness of an `Optional[str]` value: `None` and the empty
string are falsy, every other string is truthy. -/
def pyTruthy : Option String → Bool
  | none => false
  | some s => !(s == "")

/-- Python f-string rendering of an `Optional[str]` value: `None` renders
as the text "None", a string renders as itself. -/
def pyOptStr : Option String → String
  | none => "None"
  | some s => s

/-- One outbound HTTP GET: the URL passed to `client.get` and the timeout
the `httpx.AsyncClient` was configured with. -/
structure GetRequest where
  url : String
  timeout : Int
deriving DecidableEq

/-- Outcome of the one outbound GET performed by the executor: a response
with a status code and a text body, or one of the fault classes the
executor distinguishes (`httpx.TimeoutException`, `httpx.ConnectError`,
any other exception carrying a textual description). -/
inductive GetOutcome where
  | response (statusCode : Nat) (body : String)
  | timedOut
  | connectFailed
  | otherFault (msg : String)
deriving DecidableEq

/-- The behaviour of the network during one call: what the outbound GET
for a given request does. -/
abbrev Network := GetRequest → GetOutcome

/-- Predicate `httpx.Response.is_success`: a 2xx status.  `raise_for_status` raises
`httpx.HTTPStatusError` exactly when the status is not a success. -/
def is_success (code : Nat) : Bool := 200 ≤ code && code ≤ 299

/-- Serialized error payload produced on `httpx.TimeoutException`. -/
def timeoutPayload (timeout : Int) : String :=
  "\x7b\"ERROR\": \"タイムアウトエラーが発生しました。現在のタイムアウト設定: " ++ toString timeout ++ "秒\", \"status\": \"timeout\"\x7d"

/-- Serialized error payload produced on `httpx.ConnectError`. -/
def connectErrorPayload : String :=
  "\x7b\"ERROR\": \"E-Stat APIサーバーへの接続に失敗しました。ネットワーク接続を確認してください。\", \"status\": \"connection_error\"\x7d"

/-- Serialized error payload produced on `httpx.HTTPStatusError`; the
numeric status code appears both in the message and in a dedicated
status_code field. -/
def httpErrorPayload (status_code : Nat) : String :=
  "\x7b\"ERROR\": \"HTTPエラー（ステータスコード: " ++ toString status_code ++ "）が発生しました。\", \"status\": \"http_error\", \"status_code\": " ++ toString status_code ++ "\x7d"

/-- Serialized error payload produced on any other exception; the
exception text appears in the message. -/
def unknownErrorPayload (msg : String) : String :=
  "\x7b\"ERROR\": \"予期せぬエラーが発生しました: " ++ msg ++ "\", \"status\": \"unknown_error\"\x7d"

/-- Function `make_e_stat_request` from server.py: perform one GET against `url`
with the given timeout; return the response text on success, and on any
fault return the serialized error payload of its class.  The second
component records the GET requests issued (always exactly one). -/
def make_e_stat_request (net : Network) (url : String) (timeout : Int) :
    String × List GetRequest :=
  let req : GetRequest := ⟨url, timeout⟩
  match net req with
  | GetOutcome.response code body =>
      if is_success code then (body, [req]) else (httpErrorPayload code, [req])
  | GetOutcome.timedOut => (timeoutPayload timeout, [req])
  | GetOutcome.connectFailed => (connectErrorPayload, [req])
  | GetOutcome.otherFault msg => (unknownErrorPayload msg, [req])

/-- Constant `E_STAT_API_BASE_URL` from server.py. -/
def E_STAT_API_BASE_URL : String := "https://api.e-stat.go.jp/rest/3.0/app/"

/-- Operation `search_e_stat_tables` from server.py.  `appId` is the process
configuration value `E_STAT_APP_ID` (an `Optional[str]` read from the
environment).  The executor is invoked with its default timeout of 30. -/
def search_e_stat_tables (appId : Option String) (search_word surveyYears : String)
    (startPosition limit : Int) (net : Network) : String × List GetRequest :=
  let url := E_STAT_API_BASE_URL ++ "getStatsList?appId=" ++ pyOptStr appId
    ++ "&searchWord=" ++ search_word ++ "&limit=" ++ toString limit
    ++ "&surveyYears=" ++ surveyYears ++ "&startPosition=" ++ toString startPosition
  make_e_stat_request net url 30

/-- Operation `get_e_stat_meta_info` from server.py. -/
def get_e_stat_meta_info (appId : Option String) (stats_data_id : String)
    (net : Network) : String × List GetRequest :=
  make_e_stat_request net
    (E_STAT_API_BASE_URL ++ "getMetaInfo?appId=" ++ pyOptStr appId
      ++ "&statsDataId=" ++ stats_data_id) 30

/-- Operation `get_specific_e_stat_data` from server.py.  Exactly one of the two
identifiers must be truthy; otherwise a `ValueError` is raised before the
executor is invoked, modelled as `Except.error` with an empty request
trace. -/
def get_specific_e_stat_data (appId data_set_id stats_data_id : Option String)
    (startPosition limit : Int) (net : Network) :
    Except String String × List GetRequest :=
  let url := E_STAT_API_BASE_URL ++ "getSimpleStatsData?appId=" ++ pyOptStr appId
    ++ "&startPosition=" ++ toString startPosition ++ "&limit=" ++ toString limit
  if pyTruthy data_set_id && !pyTruthy stats_data_id then
    let r := make_e_stat_request net (url ++ "&dataSetId=" ++ pyOptStr data_set_id) 30
    (Except.ok r.1, r.2)
  else if pyTruthy stats_data_id && !pyTruthy data_set_id then
    let r := make_e_stat_request net (url ++ "&statsDataId=" ++ pyOptStr stats_data_id) 30
    (Except.ok r.1, r.2)
  else
    (Except.error "Either \x27data_set_id\x27 or \x27stats_data_id\x27 must be provided, but not both.", [])

/-- Operation `get_e_stat_ref_dataset` from server.py.  The `data_set_id` parameter
is accepted but never attached to the outbound request. -/
def get_e_stat_ref_dataset (appId : Option String) (data_set_id : String)
    (net : Network) : String × List GetRequest :=
  make_e_stat_request net (E_STAT_API_BASE_URL ++ "refDataset?appId=" ++ pyOptStr appId) 30

/-- Operation `get_e_stat_data_catalog` from server.py. -/
def get_e_stat_data_catalog (appId : Option String) (search_word surveyYears : String)
    (startPosition limit : Int) (net : Network) : String × List GetRequest :=
  make_e_stat_request net
    (E_STAT_API_BASE_URL ++ "getDataCatalog?appId=" ++ pyOptStr appId
      ++ "&searchWord=" ++ search_word ++ "&surveyYears=" ++ surveyYears
      ++ "&startPosition=" ++ toString startPosition ++ "&limit=" ++ toString limit) 30

/-! ### A small contiguous-substring theory over character lists -/

/-- Predicate `leadsWith s p`: the pattern `p` is an initial run of `s`. -/
def leadsWith : List Char → List Char → Bool
  | _, [] => true
  | [], _ :: _ => false
  | a :: s, b :: p => a == b && leadsWith s p

/-- Predicate `hasSub s p`: the pattern `p` occurs contiguously somewhere in `s`. -/
def hasSub : List Char → List Char → Bool
  | [], p => leadsWith [] p
  | a :: t, p => leadsWith (a :: t) p || hasSub t p

/-- Predicate `strHas s pat`: the string `s` contains `pat` as a contiguous
substring. -/
def strHas (s pat : String) : Bool := hasSub s.data pat.data

/-- Predicate `agreeLead m p`: `m` and `p` agree on their common initial run.  When
this fails, no extension of `m` on the right can begin with `p`. -/
def agreeLead : List Char → List Char → Bool
  | _, [] => true
  | [], _ :: _ => true
  | a :: s, b :: p => a == b && agreeLead s p

/-- Predicate `endsIn s t`: `t` is a suffix of `s`. -/
def endsIn (s t : List Char) : Prop := ∃ u, s = u ++ t

theorem leadsWith_append_self (p r : List Char) : leadsWith (p ++ r) p = true := by
  induction p with
  | nil => simp [leadsWith]
  | cons a p ih => simp [leadsWith, ih]

theorem hasSub_of_leadsWith {s p : List Char} (h : leadsWith s p = true) :
    hasSub s p = true := by
  cases s with
  | nil =>
    cases p with
    | nil => rfl
    | cons b q => simp [leadsWith] at h
  | cons a t => simp [hasSub, h]

theorem hasSub_append_left {t p : List Char} (s : List Char)
    (h : hasSub t p = true) : hasSub (s ++ t) p = true := by
  induction s with
  | nil => simpa using h
  | cons a s ih => simp [hasSub, ih]

theorem hasSub_parts (a p b : List Char) : hasSub (a ++ (p ++ b)) p = true :=
  hasSub_append_left a (hasSub_of_leadsWith (leadsWith_append_self p b))

/-- Exhibit an occurrence of `p` in `s` by decomposing `s`. -/
theorem hasSub_middle {s : List Char} (a p b : List Char)
    (h : s = a ++ (p ++ b)) : hasSub s p = true :=
  h ▸ hasSub_parts a p b

theorem hasSub_true_elim {s p : List Char} (h : hasSub s p = true) :
    ∃ t, endsIn s t ∧ leadsWith t p = true := by
  induction s with
  | nil => exact ⟨[], ⟨[], rfl⟩, h⟩
  | cons a s ih =>
    rw [hasSub, Bool.or_eq_true] at h
    cases h with
    | inl h => exact ⟨a :: s, ⟨[], rfl⟩, h⟩
    | inr h =>
      obtain ⟨t, ⟨u, hu⟩, hl⟩ := ih h
      exact ⟨t, ⟨a :: u, by rw [hu]; rfl⟩, hl⟩

theorem hasSub_of_suffix {s t p : List Char} (h : endsIn s t)
    (hl : leadsWith t p = true) : hasSub s p = true := by
  obtain ⟨u, hu⟩ := h
  rw [hu]
  exact hasSub_append_left u (hasSub_of_leadsWith hl)

theorem leadsWith_cons_elim {s : List Char} {c : Char} {q : List Char}
    (h : leadsWith s (c :: q) = true) : ∃ t, s = c :: t := by
  cases s with
  | nil => simp [leadsWith] at h
  | cons a t =>
    rw [leadsWith, Bool.and_eq_true, beq_iff_eq] at h
    exact ⟨t, by rw [h.1]⟩

theorem endsIn_mem {v : List Char} {c : Char} {t : List Char}
    (h : endsIn v (c :: t)) : c ∈ v := by
  obtain ⟨u, hu⟩ := h
  rw [hu]
  simp

theorem endsIn_append_elim {u v t : List Char} (h : endsIn (u ++ v) t) :
    (∃ w, endsIn u w ∧ t = w ++ v) ∨ endsIn v t := by
  obtain ⟨a, ha⟩ := h
  induction u generalizing a with
  | nil => exact Or.inr ⟨a, by simpa using ha⟩
  | cons x u ih =>
    cases a with
    | nil => exact Or.inl ⟨x :: u, ⟨[], rfl⟩, by simpa using ha.symm⟩
    | cons y a =>
      rw [List.cons_append, List.cons_append] at ha
      obtain ⟨hx, ha2⟩ := List.cons.inj ha
      rcases ih a ha2 with ⟨w, ⟨b, hb⟩, ht⟩ | h2
      · exact Or.inl ⟨w, ⟨x :: b, by rw [hb, List.cons_append]⟩, ht⟩
      · exact Or.inr h2

theorem endsIn_skip {u v : List Char} {c : Char} {t : List Char}
    (hc : c ∉ u) (h : endsIn (u ++ v) (c :: t)) : endsIn v (c :: t) := by
  rcases endsIn_append_elim h with ⟨w, hw, ht⟩ | h2
  · cases w with
    | nil => exact ⟨[], by simpa using ht.symm⟩
    | cons x w2 =>
      rw [List.cons_append] at ht
      obtain ⟨hx, _⟩ := List.cons.inj ht
      rw [← hx] at hw
      exact absurd (endsIn_mem hw) hc
  · exact h2

theorem endsIn_cons_self {m w : List Char} {c : Char} (hm : c ∉ m)
    (h : endsIn (c :: m) (c :: w)) : w = m := by
  obtain ⟨a, ha⟩ := h
  cases a with
  | nil =>
    have h2 : m = w := by simpa using ha
    exact h2.symm
  | cons b a2 =>
    rw [List.cons_append] at ha
    obtain ⟨_, h2⟩ := List.cons.inj ha
    rw [h2] at hm
    simp at hm

theorem endsIn_marker {m v : List Char} {c : Char} {t : List Char}
    (hm : c ∉ m) (h : endsIn ((c :: m) ++ v) (c :: t)) :
    c :: t = (c :: m) ++ v ∨ endsIn v (c :: t) := by
  rcases endsIn_append_elim h with ⟨w, hw, ht⟩ | h2
  · cases w with
    | nil => exact Or.inr ⟨[], by simpa using ht.symm⟩
    | cons x w2 =>
      rw [List.cons_append] at ht
      obtain ⟨hx, _⟩ := List.cons.inj ht
      rw [← hx] at ht hw
      rw [endsIn_cons_self hm hw] at ht
      exact Or.inl (by simpa using ht)
  · exact Or.inr h2

theorem leadsWith_agree_false {m p : List Char} (r : List Char)
    (h : agreeLead m p = false) : leadsWith (m ++ r) p = false := by
  induction m generalizing p with
  | nil => cases p <;> simp [agreeLead] at h
  | cons a m ih =>
    cases p with
    | nil => simp [agreeLead] at h
    | cons b q =>
      by_cases hab : a = b
      · rw [hab] at h ⊢
        rw [agreeLead, Bool.and_eq_false_iff] at h
        rcases h with h | h
        · simp at h
        · rw [List.cons_append, leadsWith]
          simp [ih h]
      · rw [List.cons_append, leadsWith]
        simp [hab]

/-! ### Characters producible by the decimal renderer -/

/-- Superset of the characters occurring in `toString` of any integer:
the minus sign together with everything `Nat.digitChar` can produce. -/
def reprChars : List Char := '-' :: "0123456789abcdef*".data

theorem digitChar_mem (n : Nat) : Nat.digitChar n ∈ reprChars := by
  match n with
  | 0 | 1 | 2 | 3 | 4 | 5 | 6 | 7 | 8 | 9 | 10 | 11 | 12 | 13 | 14 | 15 => decide
  | (m + 16) =>
    have h : Nat.digitChar (m + 16) = '*' := by
      unfold Nat.digitChar
      repeat rw [if_neg (by omega)]
    rw [h]
    decide

theorem toDigitsCore_mem (b fuel : Nat) :
    ∀ (n : Nat) (acc : List Char), (∀ c ∈ acc, c ∈ reprChars) →
      ∀ c ∈ Nat.toDigitsCore b fuel n acc, c ∈ reprChars := by
  induction fuel with
  | zero =>
    intro n acc hacc c hc
    exact hacc c (by simpa [Nat.toDigitsCore] using hc)
  | succ fuel ih =>
    intro n acc hacc c hc
    have hstep : ∀ c ∈ Nat.digitChar (n % b) :: acc, c ∈ reprChars := by
      intro c hc
      rcases List.mem_cons.mp hc with h | h
      · rw [h]; exact digitChar_mem _
      · exact hacc c h
    simp only [Nat.toDigitsCore] at hc
    split at hc
    · exact hstep c hc
    · exact ih (n / b) _ hstep c hc

theorem natRepr_mem (n : Nat) : ∀ c ∈ (Nat.repr n).data, c ∈ reprChars := by
  intro c hc
  have hd : (Nat.repr n).data = Nat.toDigitsCore 10 (n + 1) n [] := rfl
  rw [hd] at hc
  exact toDigitsCore_mem 10 (n + 1) n [] (by intro c h; simp at h) c hc

theorem intToString_mem (i : Int) : ∀ c ∈ (toString i).data, c ∈ reprChars := by
  cases i with
  | ofNat m =>
    intro c hc
    exact natRepr_mem m c hc
  | negSucc m =>
    intro c hc
    have hd : (toString (Int.negSucc m)).data = '-' :: (Nat.repr (m + 1)).data := rfl
    rw [hd] at hc
    rcases List.mem_cons.mp hc with h | h
    · rw [h]; exact List.mem_cons_self _ _
    · exact natRepr_mem (m + 1) c h

theorem intToString_no_amp (i : Int) : '&' ∉ (toString i).data := by
  intro h
  exact absurd (intToString_mem i '&' h) (by decide)

theorem intToString_no_quote (i : Int) : '"' ∉ (toString i).data := by
  intro h
  exact absurd (intToString_mem i '"' h) (by decide)

theorem natToString_no_quote (n : Nat) : '"' ∉ (toString n).data := by
  intro h
  exact absurd (natRepr_mem n '"' h) (by decide)

/-! ### Non-occurrence lemmas

A query parameter marker starts with a character that is known not to
occur in the variable segments of the subject string, so every candidate
occurrence either starts at one of finitely many concrete positions,
where a concrete mismatch refutes it, or lies in the fully concrete tail,
where evaluation refutes it. -/

theorem specific_ds_url_no_stats (A SP L DS : List Char)
    (hA : '&' ∉ A) (hSP : '&' ∉ SP) (hL : '&' ∉ L) (hDS : '&' ∉ DS) :
    hasSub ("https://api.e-stat.go.jp/rest/3.0/app/".data ++
        ("getSimpleStatsData?appId=".data ++ (A ++
          ("&startPosition=".data ++ (SP ++
            ("&limit=".data ++ (L ++
              ("&dataSetId=".data ++ DS))))))))
      "&statsDataId=".data = false := by
  rw [Bool.eq_false_iff]
  intro hc
  obtain ⟨t, hends, hlead⟩ := hasSub_true_elim hc
  rw [show ("&statsDataId=".data : List Char) = '&' :: "statsDataId=".data from rfl] at hlead
  obtain ⟨t2, ht2⟩ := leadsWith_cons_elim hlead
  rw [ht2] at hends hlead
  have h0 := endsIn_skip (by decide) hends
  have h1 := endsIn_skip (by decide) h0
  have h2 := endsIn_skip hA h1
  rw [show ("&startPosition=".data : List Char) = '&' :: "startPosition=".data from rfl] at h2
  rcases endsIn_marker (by decide) h2 with heq | h3
  · rw [heq] at hlead
    rw [leadsWith_agree_false _ (by decide)] at hlead
    exact Bool.noConfusion hlead
  · have h4 := endsIn_skip hSP h3
    rw [show ("&limit=".data : List Char) = '&' :: "limit=".data from rfl] at h4
    rcases endsIn_marker (by decide) h4 with heq | h5
    · rw [heq] at hlead
      rw [leadsWith_agree_false _ (by decide)] at hlead
      exact Bool.noConfusion hlead
    · have h6 := endsIn_skip hL h5
      rw [show ("&dataSetId=".data : List Char) = '&' :: "dataSetId=".data from rfl] at h6
      rcases endsIn_marker (by decide) h6 with heq | h7
      · rw [heq] at hlead
        rw [leadsWith_agree_false _ (by decide)] at hlead
        exact Bool.noConfusion hlead
      · exact hDS (endsIn_mem h7)

theorem specific_sd_url_no_data (A SP L SD : List Char)
    (hA : '&' ∉ A) (hSP : '&' ∉ SP) (hL : '&' ∉ L) (hSD : '&' ∉ SD) :
    hasSub ("https://api.e-stat.go.jp/rest/3.0/app/".data ++
        ("getSimpleStatsData?appId=".data ++ (A ++
          ("&startPosition=".data ++ (SP ++
            ("&limit=".data ++ (L ++
              ("&statsDataId=".data ++ SD))))))))
      "&dataSetId=".data = false := by
  rw [Bool.eq_false_iff]
  intro hc
  obtain ⟨t, hends, hlead⟩ := hasSub_true_elim hc
  rw [show ("&dataSetId=".data : List Char) = '&' :: "dataSetId=".data from rfl] at hlead
  obtain ⟨t2, ht2⟩ := leadsWith_cons_elim hlead
  rw [ht2] at hends hlead
  have h0 := endsIn_skip (by decide) hends
  have h1 := endsIn_skip (by decide) h0
  have h2 := endsIn_skip hA h1
  rw [show ("&startPosition=".data : List Char) = '&' :: "startPosition=".data from rfl] at h2
  rcases endsIn_marker (by decide) h2 with heq | h3
  · rw [heq] at hlead
    rw [leadsWith_agree_false _ (by decide)] at hlead
    exact Bool.noConfusion hlead
  · have h4 := endsIn_skip hSP h3
    rw [show ("&limit=".data : List Char) = '&' :: "limit=".data from rfl] at h4
    rcases endsIn_marker (by decide) h4 with heq | h5
    · rw [heq] at hlead
      rw [leadsWith_agree_false _ (by decide)] at hlead
      exact Bool.noConfusion hlead
    · have h6 := endsIn_skip hL h5
      rw [show ("&statsDataId=".data : List Char) = '&' :: "statsDataId=".data from rfl] at h6
      rcases endsIn_marker (by decide) h6 with heq | h7
      · rw [heq] at hlead
        rw [leadsWith_agree_false _ (by decide)] at hlead
        exact Bool.noConfusion hlead
      · exact hSD (endsIn_mem h7)

theorem timeout_payload_chase (T : List Char) (hT : '"' ∉ T) :
    hasSub ("\x7b".data ++
        ("\"ERROR".data ++
          ("\": ".data ++
            ("\"タイムアウトエラーが発生しました。現在のタイムアウト設定: ".data ++
              (T ++ "秒\", \"status\": \"timeout\"\x7d".data)))))
      "\"status_code\"".data = false := by
  rw [Bool.eq_false_iff]
  intro hc
  obtain ⟨t, hends, hlead⟩ := hasSub_true_elim hc
  rw [show ("\"status_code\"".data : List Char) = '"' :: "status_code\"".data from rfl] at hlead
  obtain ⟨t2, ht2⟩ := leadsWith_cons_elim hlead
  rw [ht2] at hends hlead
  have h0 := endsIn_skip (by decide) hends
  rw [show ("\"ERROR".data : List Char) = '"' :: "ERROR".data from rfl] at h0
  rcases endsIn_marker (by decide) h0 with heq | h1
  · rw [heq] at hlead
    rw [leadsWith_agree_false _ (by decide)] at hlead
    exact Bool.noConfusion hlead
  · rw [show ("\": ".data : List Char) = '"' :: ": ".data from rfl] at h1
    rcases endsIn_marker (by decide) h1 with heq | h2
    · rw [heq] at hlead
      rw [leadsWith_agree_false _ (by decide)] at hlead
      exact Bool.noConfusion hlead
    · rw [show ("\"タイムアウトエラーが発生しました。現在のタイムアウト設定: ".data : List Char) =
          '"' :: "タイムアウトエラーが発生しました。現在のタイムアウト設定: ".data from rfl] at h2
      rcases endsIn_marker (by decide) h2 with heq | h3
      · rw [heq] at hlead
        rw [leadsWith_agree_false _ (by decide)] at hlead
        exact Bool.noConfusion hlead
      · have h4 := endsIn_skip hT h3
        exact absurd (hasSub_of_suffix h4 hlead) (by decide)

theorem unknown_payload_chase (M : List Char) (hM : '"' ∉ M) :
    hasSub ("\x7b".data ++
        ("\"ERROR".data ++
          ("\": ".data ++
            ("\"予期せぬエラーが発生しました: ".data ++
              (M ++ "\", \"status\": \"unknown_error\"\x7d".data)))))
      "\"status_code\"".data = false := by
  rw [Bool.eq_false_iff]
  intro hc
  obtain ⟨t, hends, hlead⟩ := hasSub_true_elim hc
  rw [show ("\"status_code\"".data : List Char) = '"' :: "status_code\"".data from rfl] at hlead
  obtain ⟨t2, ht2⟩ := leadsWith_cons_elim hlead
  rw [ht2] at hends hlead
  have h0 := endsIn_skip (by decide) hends
  rw [show ("\"ERROR".data : List Char) = '"' :: "ERROR".data from rfl] at h0
  rcases endsIn_marker (by decide) h0 with heq | h1
  · rw [heq] at hlead
    rw [leadsWith_agree_false _ (by decide)] at hlead
    exact Bool.noConfusion hlead
  · rw [show ("\": ".data : List Char) = '"' :: ": ".data from rfl] at h1
    rcases endsIn_marker (by decide) h1 with heq | h2
    · rw [heq] at hlead
      rw [leadsWith_agree_false _ (by decide)] at hlead
      exact Bool.noConfusion hlead
    · rw [show ("\"予期せぬエラーが発生しました: ".data : List Char) =
          '"' :: "予期せぬエラーが発生しました: ".data from rfl] at h2
      rcases endsIn_marker (by decide) h2 with heq | h3
      · rw [heq] at hlead
        rw [leadsWith_agree_false _ (by decide)] at hlead
        exact Bool.noConfusion hlead
      · have h4 := endsIn_skip hM h3
        exact absurd (hasSub_of_suffix h4 hlead) (by decide)

/-! ### Decompositions of constructed URLs and payloads -/

theorem specific_ds_url_data (a sp lim d : String) :
    (E_STAT_API_BASE_URL ++ "getSimpleStatsData?appId=" ++ a ++ "&startPosition=" ++ sp
      ++ "&limit=" ++ lim ++ "&dataSetId=" ++ d).data =
    "https://api.e-stat.go.jp/rest/3.0/app/".data ++
      ("getSimpleStatsData?appId=".data ++ (a.data ++
        ("&startPosition=".data ++ (sp.data ++
          ("&limit=".data ++ (lim.data ++
            ("&dataSetId=".data ++ d.data))))))) := by
  simp only [E_STAT_API_BASE_URL, String.data_append, List.append_assoc]

theorem specific_sd_url_data (a sp lim d : String) :
    (E_STAT_API_BASE_URL ++ "getSimpleStatsData?appId=" ++ a ++ "&startPosition=" ++ sp
      ++ "&limit=" ++ lim ++ "&statsDataId=" ++ d).data =
    "https://api.e-stat.go.jp/rest/3.0/app/".data ++
      ("getSimpleStatsData?appId=".data ++ (a.data ++
        ("&startPosition=".data ++ (sp.data ++
          ("&limit=".data ++ (lim.data ++
            ("&statsDataId=".data ++ d.data))))))) := by
  simp only [E_STAT_API_BASE_URL, String.data_append, List.append_assoc]

theorem timeout_payload_data (t : Int) :
    (timeoutPayload t).data =
    "\x7b".data ++ ("\"ERROR".data ++ ("\": ".data ++
      ("\"タイムアウトエラーが発生しました。現在のタイムアウト設定: ".data ++
        ((toString t).data ++ "秒\", \"status\": \"timeout\"\x7d".data)))) := by
  simp only [timeoutPayload, String.data_append, List.append_assoc, List.cons_append,
    List.nil_append]

theorem unknown_payload_data (m : String) :
    (unknownErrorPayload m).data =
    "\x7b".data ++ ("\"ERROR".data ++ ("\": ".data ++
      ("\"予期せぬエラーが発生しました: ".data ++
        (m.data ++ "\", \"status\": \"unknown_error\"\x7d".data)))) := by
  simp only [unknownErrorPayload, String.data_append, List.append_assoc, List.cons_append,
    List.nil_append]

/-! ### Positive inclusion facts about the error payloads -/

theorem timeout_includes_value (t : Int) :
    strHas (timeoutPayload t) (toString t) = true := by
  show hasSub (timeoutPayload t).data (toString t).data = true
  apply hasSub_middle
    ("\x7b\"ERROR\": \"タイムアウトエラーが発生しました。現在のタイムアウト設定: ".data)
    (toString t).data ("秒\", \"status\": \"timeout\"\x7d".data)
  simp only [timeoutPayload, String.data_append, List.append_assoc]

theorem timeout_includes_status (t : Int) :
    strHas (timeoutPayload t) "\"status\": \"timeout\"" = true := by
  show hasSub (timeoutPayload t).data "\"status\": \"timeout\"".data = true
  apply hasSub_middle
    ("\x7b\"ERROR\": \"タイムアウトエラーが発生しました。現在のタイムアウト設定: ".data ++
      ((toString t).data ++ "秒\", ".data))
    "\"status\": \"timeout\"".data "\x7d".data
  simp only [timeoutPayload, String.data_append, List.append_assoc, List.cons_append,
    List.nil_append]

theorem connect_includes_status :
    strHas connectErrorPayload "\"status\": \"connection_error\"" = true := by decide

theorem http_includes_code_msg (c : Nat) :
    strHas (httpErrorPayload c) ("ステータスコード: " ++ toString c) = true := by
  show hasSub (httpErrorPayload c).data ("ステータスコード: " ++ toString c).data = true
  apply hasSub_middle ("\x7b\"ERROR\": \"HTTPエラー（".data)
    ("ステータスコード: ".data ++ (toString c).data)
    ("）が発生しました。\", \"status\": \"http_error\", \"status_code\": ".data ++
      ((toString c).data ++ "\x7d".data))
  simp only [httpErrorPayload, String.data_append, List.append_assoc, List.cons_append,
    List.nil_append]

theorem http_includes_sc_value (c : Nat) :
    strHas (httpErrorPayload c) ("\"status_code\": " ++ toString c) = true := by
  show hasSub (httpErrorPayload c).data ("\"status_code\": " ++ toString c).data = true
  apply hasSub_middle
    ("\x7b\"ERROR\": \"HTTPエラー（ステータスコード: ".data ++
      ((toString c).data ++ "）が発生しました。\", \"status\": \"http_error\", ".data))
    ("\"status_code\": ".data ++ (toString c).data) ("\x7d".data)
  simp only [httpErrorPayload, String.data_append, List.append_assoc, List.cons_append,
    List.nil_append]

theorem http_includes_status (c : Nat) :
    strHas (httpErrorPayload c) "\"status\": \"http_error\"" = true := by
  show hasSub (httpErrorPayload c).data "\"status\": \"http_error\"".data = true
  apply hasSub_middle
    ("\x7b\"ERROR\": \"HTTPエラー（ステータスコード: ".data ++
      ((toString c).data ++ "）が発生しました。\", ".data))
    "\"status\": \"http_error\"".data
    (", \"status_code\": ".data ++ ((toString c).data ++ "\x7d".data))
  simp only [httpErrorPayload, String.data_append, List.append_assoc, List.cons_append,
    List.nil_append]

theorem http_has_sc_marker (c : Nat) :
    strHas (httpErrorPayload c) "\"status_code\"" = true := by
  show hasSub (httpErrorPayload c).data "\"status_code\"".data = true
  apply hasSub_middle
    ("\x7b\"ERROR\": \"HTTPエラー（ステータスコード: ".data ++
      ((toString c).data ++ "）が発生しました。\", \"status\": \"http_error\", ".data))
    "\"status_code\"".data
    (": ".data ++ ((toString c).data ++ "\x7d".data))
  simp only [httpErrorPayload, String.data_append, List.append_assoc, List.cons_append,
    List.nil_append]

theorem unknown_includes_msg (m : String) :
    strHas (unknownErrorPayload m) m = true := by
  show hasSub (unknownErrorPayload m).data m.data = true
  apply hasSub_middle ("\x7b\"ERROR\": \"予期せぬエラーが発生しました: ".data)
    m.data ("\", \"status\": \"unknown_error\"\x7d".data)
  simp only [unknownErrorPayload, String.data_append, List.append_assoc]

theorem unknown_includes_status (m : String) :
    strHas (unknownErrorPayload m) "\"status\": \"unknown_error\"" = true := by
  show hasSub (unknownErrorPayload m).data "\"status\": \"unknown_error\"".data = true
  apply hasSub_middle
    ("\x7b\"ERROR\": \"予期せぬエラーが発生しました: ".data ++ (m.data ++ "\", ".data))
    "\"status\": \"unknown_error\"".data "\x7d".data
  simp only [unknownErrorPayload, String.data_append, List.append_assoc, List.cons_append,
    List.nil_append]

theorem timeout_no_sc_marker (t : Int) :
    strHas (timeoutPayload t) "\"status_code\"" = false := by
  show hasSub (timeoutPayload t).data "\"status_code\"".data = false
  rw [timeout_payload_data]
  exact timeout_payload_chase _ (intToString_no_quote t)

theorem connect_no_sc_marker :
    strHas connectErrorPayload "\"status_code\"" = false := by decide

theorem unknown_no_sc_marker (m : String) (hm : '"' ∉ m.data) :
    strHas (unknownErrorPayload m) "\"status_code\"" = false := by
  show hasSub (unknownErrorPayload m).data "\"status_code\"".data = false
  rw [unknown_payload_data]
  exact unknown_payload_chase _ hm

/-! ### Helper facts about the executor and the specific-data handler -/

/-- The executor issues exactly one GET per invocation, whatever the
outcome. -/
theorem make_trace (net : Network) (url : String) (timeout : Int) :
    (make_e_stat_request net url timeout).2 = [⟨url, timeout⟩] := by
  simp only [make_e_stat_request]
  cases net ⟨url, timeout⟩ with
  | response code body =>
    dsimp only
    split <;> rfl
  | timedOut => rfl
  | connectFailed => rfl
  | otherFault msg => rfl

/-- When the two identifiers have the same truthiness (neither usable or
both usable), the specific-data handler raises the `ValueError` and
issues no request. -/
theorem specific_reject {appId ds sd : Option String} {sp lim : Int} {net : Network}
    (h : pyTruthy ds = pyTruthy sd) :
    get_specific_e_stat_data appId ds sd sp lim net =
      (Except.error "Either \x27data_set_id\x27 or \x27stats_data_id\x27 must be provided, but not both.", []) := by
  have hcond1 : (pyTruthy ds && !pyTruthy sd) = false := by
    rw [h]; cases pyTruthy sd <;> rfl
  have hcond2 : (pyTruthy sd && !pyTruthy ds) = false := by
    rw [← h]; cases pyTruthy ds <;> rfl
  simp [get_specific_e_stat_data, hcond1, hcond2]

/-- Evaluation of the specific-data handler when only the dataset
identifier is truthy. -/
theorem specific_ds_branch {appId ds sd : Option String} {sp lim : Int} {net : Network}
    (hds : pyTruthy ds = true) (hsd : pyTruthy sd = false) :
    get_specific_e_stat_data appId ds sd sp lim net =
      (Except.ok (make_e_stat_request net (E_STAT_API_BASE_URL ++ "getSimpleStatsData?appId="
          ++ pyOptStr appId ++ "&startPosition=" ++ toString sp ++ "&limit=" ++ toString lim
          ++ "&dataSetId=" ++ pyOptStr ds) 30).1,
        [⟨E_STAT_API_BASE_URL ++ "getSimpleStatsData?appId=" ++ pyOptStr appId
          ++ "&startPosition=" ++ toString sp ++ "&limit=" ++ toString lim
          ++ "&dataSetId=" ++ pyOptStr ds, 30⟩]) := by
  simp [get_specific_e_stat_data, hds, hsd, make_trace]

/-- Evaluation of the specific-data handler when only the table
identifier is truthy. -/
theorem specific_sd_branch {appId ds sd : Option String} {sp lim : Int} {net : Network}
    (hsd : pyTruthy sd = true) (hds : pyTruthy ds = false) :
    get_specific_e_stat_data appId ds sd sp lim net =
      (Except.ok (make_e_stat_request net (E_STAT_API_BASE_URL ++ "getSimpleStatsData?appId="
          ++ pyOptStr appId ++ "&startPosition=" ++ toString sp ++ "&limit=" ++ toString lim
          ++ "&statsDataId=" ++ pyOptStr sd) 30).1,
        [⟨E_STAT_API_BASE_URL ++ "getSimpleStatsData?appId=" ++ pyOptStr appId
          ++ "&startPosition=" ++ toString sp ++ "&limit=" ++ toString lim
          ++ "&statsDataId=" ++ pyOptStr sd, 30⟩]) := by
  simp [get_specific_e_stat_data, hds, hsd, make_trace]

/-! ### Claim theorems -/

/-- C1: whenever neither or both of the two identifiers of
`get_specific_e_stat_data` are supplied (supplied meaning truthy, i.e.
neither `None` nor empty — both falsy or both truthy), the operation
fails pre-flight with the `ValueError`, and the request trace is empty:
the executor is never invoked and zero network calls are made. -/
theorem claim_invalid_combo_rejects_pre_flight
    (appId data_set_id stats_data_id : Option String) (startPosition limit : Int)
    (net : Network) (h : pyTruthy data_set_id = pyTruthy stats_data_id) :
    get_specific_e_stat_data appId data_set_id stats_data_id startPosition limit net =
      (Except.error "Either \x27data_set_id\x27 or \x27stats_data_id\x27 must be provided, but not both.", []) :=
  specific_reject h

/-- Witness for C1: the concrete both-supplied call rejects with no
request issued. -/
theorem claim_invalid_combo_rejects_pre_flight_witness :
    get_specific_e_stat_data none (some "X") (some "Y") 1 100 (fun _ => GetOutcome.timedOut) =
      (Except.error "Either \x27data_set_id\x27 or \x27stats_data_id\x27 must be provided, but not both.", []) :=
  claim_invalid_combo_rejects_pre_flight none (some "X") (some "Y") 1 100
    (fun _ => GetOutcome.timedOut) (by decide)

/-- C4: the request executor is total with respect to the faults of the
outbound GET: whatever the network does, the executor returns a string —
the success body, or one of the four serialized error payloads — and
never propagates a fault. -/
theorem claim_executor_absorbs_faults (net : Network) (url : String) (timeout : Int) :
    (∃ code body, net ⟨url, timeout⟩ = GetOutcome.response code body ∧
        ((is_success code = true ∧ (make_e_stat_request net url timeout).1 = body) ∨
         (is_success code = false ∧
           (make_e_stat_request net url timeout).1 = httpErrorPayload code))) ∨
    (net ⟨url, timeout⟩ = GetOutcome.timedOut ∧
      (make_e_stat_request net url timeout).1 = timeoutPayload timeout) ∨
    (net ⟨url, timeout⟩ = GetOutcome.connectFailed ∧
      (make_e_stat_request net url timeout).1 = connectErrorPayload) ∨
    (∃ msg, net ⟨url, timeout⟩ = GetOutcome.otherFault msg ∧
      (make_e_stat_request net url timeout).1 = unknownErrorPayload msg) := by
  cases hnet : net ⟨url, timeout⟩ with
  | response code body =>
    refine Or.inl ⟨code, body, rfl, ?_⟩
    cases hcode : is_success code with
    | true => exact Or.inl ⟨rfl, by simp [make_e_stat_request, hnet, hcode]⟩
    | false => exact Or.inr ⟨rfl, by simp [make_e_stat_request, hnet, hcode]⟩
  | timedOut => exact Or.inr (Or.inl ⟨rfl, by simp [make_e_stat_request, hnet]⟩)
  | connectFailed => exact Or.inr (Or.inr (Or.inl ⟨rfl, by simp [make_e_stat_request, hnet]⟩))
  | otherFault msg =>
    exact Or.inr (Or.inr (Or.inr ⟨msg, rfl, by simp [make_e_stat_request, hnet]⟩))

/-- C5: `get_e_stat_ref_dataset` never attaches its dataset identifier:
its behaviour is identical for any two identifiers, and the one request
it issues carries exactly the refDataset endpoint and the appId
parameter. -/
theorem claim_ref_dataset_ignores_id (appId : Option String) (ds1 ds2 : String)
    (net : Network) :
    get_e_stat_ref_dataset appId ds1 net = get_e_stat_ref_dataset appId ds2 net ∧
    (get_e_stat_ref_dataset appId ds1 net).2 =
      [⟨E_STAT_API_BASE_URL ++ "refDataset?appId=" ++ pyOptStr appId, 30⟩] :=
  ⟨rfl, make_trace net _ 30⟩

/-- C7: on a successful response status the executor returns the
response body unmodified. -/
theorem claim_success_body_unmodified (net : Network) (url : String) (timeout : Int)
    (code : Nat) (body : String)
    (hnet : net ⟨url, timeout⟩ = GetOutcome.response code body)
    (hcode : is_success code = true) :
    (make_e_stat_request net url timeout).1 = body := by
  simp [make_e_stat_request, hnet, hcode]

/-- Witness for C7 at a concrete 200 response. -/
theorem claim_success_body_unmodified_witness :
    (make_e_stat_request (fun _ => GetOutcome.response 200 "RAW BODY")
      "https://api.e-stat.go.jp/rest/3.0/app/refDataset?appId=None" 30).1 = "RAW BODY" :=
  claim_success_body_unmodified (fun _ => GetOutcome.response 200 "RAW BODY")
    "https://api.e-stat.go.jp/rest/3.0/app/refDataset?appId=None" 30 200 "RAW BODY"
    rfl (by decide)

/-- C8: the two failure kinds of `get_specific_e_stat_data` travel on
different channels: an invalid identifier combination raises the
`ValueError` synchronously with no network call, while a valid
combination always yields a returned string (network faults included,
since the executor never raises). -/
theorem claim_failure_channels (appId ds sd : Option String) (sp lim : Int)
    (net : Network) :
    (pyTruthy ds = pyTruthy sd →
      get_specific_e_stat_data appId ds sd sp lim net =
        (Except.error "Either \x27data_set_id\x27 or \x27stats_data_id\x27 must be provided, but not both.", [])) ∧
    (pyTruthy ds ≠ pyTruthy sd →
      ∃ s, (get_specific_e_stat_data appId ds sd sp lim net).1 = Except.ok s) := by
  constructor
  · exact fun h => specific_reject h
  · intro hne
    cases hds : pyTruthy ds with
    | true =>
      cases hsd : pyTruthy sd with
      | true => exact absurd (hds.trans hsd.symm) hne
      | false =>
        rw [specific_ds_branch hds hsd]
        exact ⟨_, rfl⟩
    | false =>
      cases hsd : pyTruthy sd with
      | false => exact absurd (hds.trans hsd.symm) hne
      | true =>
        rw [specific_sd_branch hsd hds]
        exact ⟨_, rfl⟩

/-- Witness for C8: a rejected call returns through the raise channel, a
valid call returns through the string channel even when the network
times out. -/
theorem claim_failure_channels_witness :
    (get_specific_e_stat_data none none none 1 100 (fun _ => GetOutcome.timedOut) =
      (Except.error "Either \x27data_set_id\x27 or \x27stats_data_id\x27 must be provided, but not both.", [])) ∧
    (∃ s, (get_specific_e_stat_data none (some "D") none 1 100
      (fun _ => GetOutcome.timedOut)).1 = Except.ok s) :=
  ⟨(claim_failure_channels none none none 1 100 (fun _ => GetOutcome.timedOut)).1 rfl,
   (claim_failure_channels none (some "D") none 1 100 (fun _ => GetOutcome.timedOut)).2
     (by decide)⟩

/-- C3: the executor classifies failures into exactly four categories:
timeout (message includes the configured timeout value), connection
error, HTTP error (the numeric code appears in the message and in the
status_code field), and unknown error (the fault text appears in the
message); each yields the corresponding serialized payload with its
status marker. -/
theorem claim_error_classification (net : Network) (url : String) (timeout : Int) :
    (net ⟨url, timeout⟩ = GetOutcome.timedOut →
      (make_e_stat_request net url timeout).1 = timeoutPayload timeout ∧
      strHas (make_e_stat_request net url timeout).1 (toString timeout) = true ∧
      strHas (make_e_stat_request net url timeout).1 "\"status\": \"timeout\"" = true) ∧
    (net ⟨url, timeout⟩ = GetOutcome.connectFailed →
      (make_e_stat_request net url timeout).1 = connectErrorPayload ∧
      strHas (make_e_stat_request net url timeout).1 "\"status\": \"connection_error\"" = true) ∧
    (∀ code body, net ⟨url, timeout⟩ = GetOutcome.response code body →
      is_success code = false →
      (make_e_stat_request net url timeout).1 = httpErrorPayload code ∧
      strHas (make_e_stat_request net url timeout).1 ("ステータスコード: " ++ toString code) = true ∧
      strHas (make_e_stat_request net url timeout).1 ("\"status_code\": " ++ toString code) = true ∧
      strHas (make_e_stat_request net url timeout).1 "\"status\": \"http_error\"" = true) ∧
    (∀ msg, net ⟨url, timeout⟩ = GetOutcome.otherFault msg →
      (make_e_stat_request net url timeout).1 = unknownErrorPayload msg ∧
      strHas (make_e_stat_request net url timeout).1 msg = true ∧
      strHas (make_e_stat_request net url timeout).1 "\"status\": \"unknown_error\"" = true) := by
  refine ⟨fun h => ?_, fun h => ?_, fun code body h hc => ?_, fun msg h => ?_⟩
  · have he : (make_e_stat_request net url timeout).1 = timeoutPayload timeout := by
      simp [make_e_stat_request, h]
    rw [he]
    exact ⟨rfl, timeout_includes_value timeout, timeout_includes_status timeout⟩
  · have he : (make_e_stat_request net url timeout).1 = connectErrorPayload := by
      simp [make_e_stat_request, h]
    rw [he]
    exact ⟨rfl, connect_includes_status⟩
  · have he : (make_e_stat_request net url timeout).1 = httpErrorPayload code := by
      simp [make_e_stat_request, h, hc]
    rw [he]
    exact ⟨rfl, http_includes_code_msg code, http_includes_sc_value code,
      http_includes_status code⟩
  · have he : (make_e_stat_request net url timeout).1 = unknownErrorPayload msg := by
      simp [make_e_stat_request, h]
    rw [he]
    exact ⟨rfl, unknown_includes_msg msg, unknown_includes_status msg⟩

/-- Witness for C3: each of the four failure categories evaluated at a
concrete network behaviour yields its payload. -/
theorem claim_error_classification_witness :
    (make_e_stat_request (fun _ => GetOutcome.timedOut) "u" 30).1 = timeoutPayload 30 ∧
    (make_e_stat_request (fun _ => GetOutcome.connectFailed) "u" 30).1 = connectErrorPayload ∧
    (make_e_stat_request (fun _ => GetOutcome.response 404 "not found") "u" 30).1 =
      httpErrorPayload 404 ∧
    (make_e_stat_request (fun _ => GetOutcome.otherFault "boom") "u" 30).1 =
      unknownErrorPayload "boom" :=
  ⟨((claim_error_classification (fun _ => GetOutcome.timedOut) "u" 30).1 rfl).1,
   ((claim_error_classification (fun _ => GetOutcome.connectFailed) "u" 30).2.1 rfl).1,
   ((claim_error_classification (fun _ => GetOutcome.response 404 "not found") "u" 30).2.2.1
      404 "not found" rfl (by decide)).1,
   ((claim_error_classification (fun _ => GetOutcome.otherFault "boom") "u" 30).2.2.2
      "boom" rfl).1⟩

/-- C10: among the executor's error payloads, the status_code field
appears exactly in the http_error category: timeout, connection-error
and unknown-error payloads never contain it (for the unknown category,
provided the fault text itself does not contain a double quote). -/
theorem claim_status_code_iff_http (net : Network) (url : String) (timeout : Int) :
    (net ⟨url, timeout⟩ = GetOutcome.timedOut →
      strHas (make_e_stat_request net url timeout).1 "\"status_code\"" = false) ∧
    (net ⟨url, timeout⟩ = GetOutcome.connectFailed →
      strHas (make_e_stat_request net url timeout).1 "\"status_code\"" = false) ∧
    (∀ code body, net ⟨url, timeout⟩ = GetOutcome.response code body →
      is_success code = false →
      strHas (make_e_stat_request net url timeout).1 "\"status_code\"" = true) ∧
    (∀ msg, net ⟨url, timeout⟩ = GetOutcome.otherFault msg → '"' ∉ msg.data →
      strHas (make_e_stat_request net url timeout).1 "\"status_code\"" = false) := by
  refine ⟨fun h => ?_, fun h => ?_, fun code body h hc => ?_, fun msg h hq => ?_⟩
  · have he : (make_e_stat_request net url timeout).1 = timeoutPayload timeout := by
      simp [make_e_stat_request, h]
    rw [he]
    exact timeout_no_sc_marker timeout
  · have he : (make_e_stat_request net url timeout).1 = connectErrorPayload := by
      simp [make_e_stat_request, h]
    rw [he]
    exact connect_no_sc_marker
  · have he : (make_e_stat_request net url timeout).1 = httpErrorPayload code := by
      simp [make_e_stat_request, h, hc]
    rw [he]
    exact http_has_sc_marker code
  · have he : (make_e_stat_request net url timeout).1 = unknownErrorPayload msg := by
      simp [make_e_stat_request, h]
    rw [he]
    exact unknown_no_sc_marker msg hq

/-- Witness for C10: the status_code marker is absent from the three
non-HTTP payloads and present in the HTTP one, at concrete inputs. -/
theorem claim_status_code_iff_http_witness :
    strHas (make_e_stat_request (fun _ => GetOutcome.timedOut) "u" 30).1 "\"status_code\"" = false ∧
    strHas (make_e_stat_request (fun _ => GetOutcome.connectFailed) "u" 30).1 "\"status_code\"" = false ∧
    strHas (make_e_stat_request (fun _ => GetOutcome.response 500 "err") "u" 30).1 "\"status_code\"" = true ∧
    strHas (make_e_stat_request (fun _ => GetOutcome.otherFault "boom") "u" 30).1 "\"status_code\"" = false :=
  ⟨(claim_status_code_iff_http (fun _ => GetOutcome.timedOut) "u" 30).1 rfl,
   (claim_status_code_iff_http (fun _ => GetOutcome.connectFailed) "u" 30).2.1 rfl,
   (claim_status_code_iff_http (fun _ => GetOutcome.response 500 "err") "u" 30).2.2.1
     500 "err" rfl (by decide),
   (claim_status_code_iff_http (fun _ => GetOutcome.otherFault "boom") "u" 30).2.2.2
     "boom" rfl (by decide)⟩

/-- C6: `search_e_stat_tables` issues exactly one request to the
getStatsList endpoint whose query string carries searchWord,
surveyYears, startPosition and limit with the argument values verbatim,
plus the configured appId; the URL is exhibited explicitly.  The
concrete scenario of the claim is the instance
search_word = "東京 AND 人口", surveyYears = "2023", startPosition = 1,
limit = 100. -/
theorem claim_search_tables_params (appId : Option String)
    (search_word surveyYears : String) (startPosition limit : Int) (net : Network) :
    ∃ u, u = E_STAT_API_BASE_URL ++ "getStatsList?appId=" ++ pyOptStr appId
        ++ "&searchWord=" ++ search_word ++ "&limit=" ++ toString limit
        ++ "&surveyYears=" ++ surveyYears ++ "&startPosition=" ++ toString startPosition ∧
      (search_e_stat_tables appId search_word surveyYears startPosition limit net).2 =
        [⟨u, 30⟩] ∧
      strHas u ("?appId=" ++ pyOptStr appId) = true ∧
      strHas u ("&searchWord=" ++ search_word) = true ∧
      strHas u ("&surveyYears=" ++ surveyYears) = true ∧
      strHas u ("&startPosition=" ++ toString startPosition) = true ∧
      strHas u ("&limit=" ++ toString limit) = true := by
  refine ⟨_, rfl, make_trace net _ 30, ?_, ?_, ?_, ?_, ?_⟩
  · show hasSub _ ("?appId=" ++ pyOptStr appId).data = true
    apply hasSub_middle "https://api.e-stat.go.jp/rest/3.0/app/getStatsList".data
      ("?appId=" ++ pyOptStr appId).data
      ("&searchWord=" ++ search_word ++ "&limit=" ++ toString limit
        ++ "&surveyYears=" ++ surveyYears ++ "&startPosition=" ++ toString startPosition).data
    simp only [E_STAT_API_BASE_URL, String.data_append, List.append_assoc, List.cons_append,
      List.nil_append]
  · show hasSub _ ("&searchWord=" ++ search_word).data = true
    apply hasSub_middle
      (E_STAT_API_BASE_URL ++ "getStatsList?appId=" ++ pyOptStr appId).data
      ("&searchWord=" ++ search_word).data
      ("&limit=" ++ toString limit ++ "&surveyYears=" ++ surveyYears
        ++ "&startPosition=" ++ toString startPosition).data
    simp only [E_STAT_API_BASE_URL, String.data_append, List.append_assoc, List.cons_append,
      List.nil_append]
  · show hasSub _ ("&surveyYears=" ++ surveyYears).data = true
    apply hasSub_middle
      (E_STAT_API_BASE_URL ++ "getStatsList?appId=" ++ pyOptStr appId
        ++ "&searchWord=" ++ search_word ++ "&limit=" ++ toString limit).data
      ("&surveyYears=" ++ surveyYears).data
      ("&startPosition=" ++ toString startPosition).data
    simp only [E_STAT_API_BASE_URL, String.data_append, List.append_assoc, List.cons_append,
      List.nil_append]
  · show hasSub _ ("&startPosition=" ++ toString startPosition).data = true
    apply hasSub_middle
      (E_STAT_API_BASE_URL ++ "getStatsList?appId=" ++ pyOptStr appId
        ++ "&searchWord=" ++ search_word ++ "&limit=" ++ toString limit
        ++ "&surveyYears=" ++ surveyYears).data
      ("&startPosition=" ++ toString startPosition).data
      "".data
    simp only [E_STAT_API_BASE_URL, String.data_append, List.append_assoc, List.cons_append,
      List.nil_append, List.append_nil]
  · show hasSub _ ("&limit=" ++ toString limit).data = true
    apply hasSub_middle
      (E_STAT_API_BASE_URL ++ "getStatsList?appId=" ++ pyOptStr appId
        ++ "&searchWord=" ++ search_word).data
      ("&limit=" ++ toString limit).data
      ("&surveyYears=" ++ surveyYears ++ "&startPosition=" ++ toString startPosition).data
    simp only [E_STAT_API_BASE_URL, String.data_append, List.append_assoc, List.cons_append,
      List.nil_append]

/-- C2: with exactly one identifier supplied (truthy), the specific-data
handler issues exactly one request, and its query string carries the
parameter of the supplied identifier and not the parameter of the other
one.  The identifier values and the configured appId are assumed not to
contain a literal ampersand (no parameter injection). -/
theorem claim_exactly_one_identifier (appId data_set_id stats_data_id : Option String)
    (startPosition limit : Int) (net : Network)
    (hA : '&' ∉ (pyOptStr appId).data)
    (hD : '&' ∉ (pyOptStr data_set_id).data)
    (hS : '&' ∉ (pyOptStr stats_data_id).data) :
    (pyTruthy data_set_id = true → pyTruthy stats_data_id = false →
      ∃ u, (get_specific_e_stat_data appId data_set_id stats_data_id
              startPosition limit net).2 = [⟨u, 30⟩] ∧
        strHas u "&dataSetId=" = true ∧ strHas u "&statsDataId=" = false) ∧
    (pyTruthy stats_data_id = true → pyTruthy data_set_id = false →
      ∃ u, (get_specific_e_stat_data appId data_set_id stats_data_id
              startPosition limit net).2 = [⟨u, 30⟩] ∧
        strHas u "&statsDataId=" = true ∧ strHas u "&dataSetId=" = false) := by
  constructor
  · intro hds hsd
    refine ⟨E_STAT_API_BASE_URL ++ "getSimpleStatsData?appId=" ++ pyOptStr appId
      ++ "&startPosition=" ++ toString startPosition ++ "&limit=" ++ toString limit
      ++ "&dataSetId=" ++ pyOptStr data_set_id, ?_, ?_, ?_⟩
    · rw [specific_ds_branch hds hsd]
    · show hasSub _ ("&dataSetId=" : String).data = true
      apply hasSub_middle
        (E_STAT_API_BASE_URL ++ "getSimpleStatsData?appId=" ++ pyOptStr appId
          ++ "&startPosition=" ++ toString startPosition ++ "&limit=" ++ toString limit).data
        ("&dataSetId=" : String).data (pyOptStr data_set_id).data
      simp only [E_STAT_API_BASE_URL, String.data_append, List.append_assoc, List.cons_append,
        List.nil_append]
    · show hasSub _ ("&statsDataId=" : String).data = false
      rw [specific_ds_url_data]
      exact specific_ds_url_no_stats _ _ _ _ hA (intToString_no_amp startPosition)
        (intToString_no_amp limit) hD
  · intro hsd hds
    refine ⟨E_STAT_API_BASE_URL ++ "getSimpleStatsData?appId=" ++ pyOptStr appId
      ++ "&startPosition=" ++ toString startPosition ++ "&limit=" ++ toString limit
      ++ "&statsDataId=" ++ pyOptStr stats_data_id, ?_, ?_, ?_⟩
    · rw [specific_sd_branch hsd hds]
    · show hasSub _ ("&statsDataId=" : String).data = true
      apply hasSub_middle
        (E_STAT_API_BASE_URL ++ "getSimpleStatsData?appId=" ++ pyOptStr appId
          ++ "&startPosition=" ++ toString startPosition ++ "&limit=" ++ toString limit).data
        ("&statsDataId=" : String).data (pyOptStr stats_data_id).data
      simp only [E_STAT_API_BASE_URL, String.data_append, List.append_assoc, List.cons_append,
        List.nil_append]
    · show hasSub _ ("&dataSetId=" : String).data = false
      rw [specific_sd_url_data]
      exact specific_sd_url_no_data _ _ _ _ hA (intToString_no_amp startPosition)
        (intToString_no_amp limit) hS

/-- Witness for C2: with only the dataset identifier supplied, exactly
one request goes out, with the dataSetId parameter and without the
statsDataId parameter. -/
theorem claim_exactly_one_identifier_witness :
    ∃ u, (get_specific_e_stat_data (some "APPKEY") (some "0003109558") none 1 100
            (fun _ => GetOutcome.timedOut)).2 = [⟨u, 30⟩] ∧
      strHas u "&dataSetId=" = true ∧ strHas u "&statsDataId=" = false :=
  (claim_exactly_one_identifier (some "APPKEY") (some "0003109558") none 1 100
    (fun _ => GetOutcome.timedOut) (by decide) (by decide) (by decide)).1 (by decide) rfl

/-- C9: an empty-string identifier is treated as not supplied: the call
with data_set_id = "" and stats_data_id = None is rejected exactly like
the call with neither, and the call with data_set_id = "X" and
stats_data_id = "" proceeds sending only the dataSetId parameter. -/
theorem claim_empty_string_not_supplied (appId : Option String) (sp lim : Int)
    (net : Network) (hA : '&' ∉ (pyOptStr appId).data) :
    (get_specific_e_stat_data appId (some "") none sp lim net =
      (Except.error "Either \x27data_set_id\x27 or \x27stats_data_id\x27 must be provided, but not both.", [])) ∧
    (∃ u, get_specific_e_stat_data appId (some "X") (some "") sp lim net =
        (Except.ok (make_e_stat_request net u 30).1, [⟨u, 30⟩]) ∧
      strHas u "&dataSetId=" = true ∧ strHas u "&statsDataId=" = false) := by
  constructor
  · exact specific_reject (by decide)
  · refine ⟨E_STAT_API_BASE_URL ++ "getSimpleStatsData?appId=" ++ pyOptStr appId
      ++ "&startPosition=" ++ toString sp ++ "&limit=" ++ toString lim
      ++ "&dataSetId=" ++ pyOptStr (some "X"), ?_, ?_, ?_⟩
    · rw [@specific_ds_branch appId (some "X") (some "") sp lim net (by decide) (by decide)]
    · show hasSub _ ("&dataSetId=" : String).data = true
      apply hasSub_middle
        (E_STAT_API_BASE_URL ++ "getSimpleStatsData?appId=" ++ pyOptStr appId
          ++ "&startPosition=" ++ toString sp ++ "&limit=" ++ toString lim).data
        ("&dataSetId=" : String).data (pyOptStr (some "X")).data
      simp only [E_STAT_API_BASE_URL, String.data_append, List.append_assoc, List.cons_append,
        List.nil_append, pyOptStr]
    · show hasSub _ ("&statsDataId=" : String).data = false
      rw [specific_ds_url_data]
      exact specific_ds_url_no_stats _ _ _ _ hA (intToString_no_amp sp)
        (intToString_no_amp lim) (by decide)

/-- Witness for C9 at a concrete configuration. -/
theorem claim_empty_string_not_supplied_witness :
    (get_specific_e_stat_data (some "APPKEY") (some "") none 1 100
        (fun _ => GetOutcome.timedOut) =
      (Except.error "Either \x27data_set_id\x27 or \x27stats_data_id\x27 must be provided, but not both.", [])) ∧
    (∃ u, get_specific_e_stat_data (some "APPKEY") (some "X") (some "") 1 100
          (fun _ => GetOutcome.timedOut) =
        (Except.ok (make_e_stat_request (fun _ => GetOutcome.timedOut) u 30).1, [⟨u, 30⟩]) ∧
      strHas u "&dataSetId=" = true ∧ strHas u "&statsDataId=" = false) :=
  claim_empty_string_not_supplied (some "APPKEY") 1 100 (fun _ => GetOutcome.timedOut)
    (by decide)

end EStat
